import Mathlib

/-!
# KubeEdge: request-scope assembly and default EdgeCore configuration

Shallow embedding of

* `edge/pkg/metamanager/metaserver/kubernetes/scope/scope.go` (`NewRequestScope`), and
* `pkg/apis/componentconfig/edgecore/v1alpha1/default.go`
  (`NewDefaultEdgeCoreConfig`, `NewMinEdgeCoreConfig`).

Go pointers and interface values are `Option`s (`none` is `nil`).  A Go call returning
`(value, error)` is a pair `Option _ × Option Err`.  Functions of other packages are
fields of an environment record, so every result they could give is covered.
-/

/-- Go `error` value (non-nil). -/
structure Err where
  msg : String
deriving DecidableEq, Repr

namespace scope

/-! ## Capability instances

The capability implementations live in other packages.  An instance is identified by its
address; two calls of a constructor may give two instances. -/

/-- Type `spec.Schema` of kube-openapi. -/
structure Schema where
  addr : Nat
deriving DecidableEq, Repr

/-- Type `managedfields.TypeConverter`. -/
structure TypeConverter where
  addr : Nat
deriving DecidableEq, Repr

/-- Type `runtime.ObjectDefaulter`. -/
structure ObjectDefaulter where
  addr : Nat
deriving DecidableEq, Repr

/-- Type `runtime.ObjectConvertor`. -/
structure ObjectConvertor where
  addr : Nat
deriving DecidableEq, Repr

/-- Type `runtime.ObjectCreater`. -/
structure ObjectCreater where
  addr : Nat
deriving DecidableEq, Repr

/-- Type `meta.MetadataAccessor`, the generic accessor returned by `meta.NewAccessor`. -/
structure MetadataAccessor where
  addr : Nat
deriving DecidableEq, Repr

/-- Type `runtime.NegotiatedSerializer`. -/
structure NegotiatedSerializer where
  addr : Nat
deriving DecidableEq, Repr

/-- Type `runtime.ParameterCodec`. -/
structure ParameterCodec where
  addr : Nat
deriving DecidableEq, Repr

/-- Type `runtime.ObjectTyper`. -/
structure ObjectTyper where
  addr : Nat
deriving DecidableEq, Repr

/-- Type `runtime.EquivalentResourceRegistry`. -/
structure EquivalentResourceRegistry where
  addr : Nat
deriving DecidableEq, Repr

/-- Type `rest.TableConvertor`. -/
structure TableConvertor where
  addr : Nat
deriving DecidableEq, Repr

/-- Type `schema.GroupVersionKind`; the zero value has three empty strings. -/
structure GroupVersionKind where
  Group : String := ""
  Version : String := ""
  Kind : String := ""
deriving DecidableEq, Repr

/-- Type `schema.GroupVersion`. -/
structure GroupVersion where
  Group : String := ""
  Version : String := ""
deriving DecidableEq, Repr

/-- Type `schema.GroupVersionResource`. -/
structure GroupVersionResource where
  Group : String := ""
  Version : String := ""
  Resource : String := ""
deriving DecidableEq, Repr

/-- Type `fieldpath.APIVersion`. -/
abbrev APIVersion := String

/-! ## Authorization gate -/

/-- Request attributes handed to the authorization gate: verb, resource identity and the
user identity placeholder. -/
structure Attributes where
  verb : String
  resource : GroupVersionResource
  subresource : String
  user : String
deriving DecidableEq, Repr

/-- Decision of the authorization gate. -/
inductive Decision where
  | Allow
  | Deny (reason : String)
deriving DecidableEq, Repr

/-- Type `authorizer.Authorizer`: an instance with its `Authorize` method, which gives a
decision and an error. -/
structure Authorizer where
  addr : Nat
  Authorize : Attributes → Decision × Option Err

/-- Modelled from the spec: `fakers.NewAlwaysAllowAuthorizer` is not among the sources.
Section 4.6: `authorize(requestInfo) -> Allow | Deny(reason)`, "deployed as always-Allow
for the single local trust domain". -/
def fakers.NewAlwaysAllowAuthorizer : Option Authorizer :=
  some { addr := 0, Authorize := fun _ => (Decision.Allow, none) }

/-! ## Field manager

The field manager comes from `k8s.io/apimachinery/pkg/util/managedfields`, which is not
among the sources.  Its constructor and the steps of `Apply` that run before any merge
are written after that library; the merge itself and the handling of a first apply with
an object creater are left as parameters (`Remainder`). -/

/-- Top-level property name of an object's payload. -/
abbrev FieldPath := String

/-- Method `GroupVersionKind.GroupVersion`. -/
def GroupVersionKind.GroupVersion (gvk : GroupVersionKind) : GroupVersion :=
  { Group := gvk.Group, Version := gvk.Version }

/-- Method `GroupVersionKind.String`: `group/version, Kind=kind`. -/
def GroupVersionKind.String (gvk : GroupVersionKind) : String :=
  gvk.Group ++ "/" ++ gvk.Version ++ ", Kind=" ++ gvk.Kind

/-- Entry `metav1.ManagedFieldsEntry` of an object's metadata: manager, operation, API
version and the fields claimed; `decodable` tells whether `DecodeManagedFields` accepts
the entry. -/
structure ManagedFieldsEntry where
  manager : String
  operation : String
  apiVersion : String
  fields : List FieldPath
  decodable : Bool
deriving DecidableEq, Repr

/-- A `runtime.Object` as `Apply` inspects it: its group/version/kind, whether
`meta.Accessor` finds metadata, the managed fields of the metadata (`nil` or a list) and
the top-level payload. -/
structure RuntimeObject where
  gvk : GroupVersionKind
  hasMetadata : Bool
  managedFields : Option (List ManagedFieldsEntry)
  payload : List (FieldPath × String)
deriving DecidableEq, Repr

/-- Entries of the managed fields, none for `nil`. -/
def RuntimeObject.entries (o : RuntimeObject) : List ManagedFieldsEntry :=
  o.managedFields.getD []

/-- Whether `DecodeManagedFields` succeeds on the managed fields of the object. -/
def RuntimeObject.decodable (o : RuntimeObject) : Bool :=
  o.entries.all fun e => e.decodable

/-- Error `FieldConflict`, "carrying the list of contested field paths". -/
structure FieldConflict where
  fields : List FieldPath
deriving DecidableEq, Repr

/-- How a call of `Apply` ends: the new object, a field conflict, a bad-request error,
another error, or a nil dereference. -/
inductive ApplyOutcome where
  | applied (obj : RuntimeObject)
  | conflict (c : FieldConflict)
  | badRequest (msg : String)
  | failed (msg : String)
  | nilDereference
deriving DecidableEq, Repr

/-- Type `managedfields.FieldManager`: what the constructor stores in the chain of
managers it builds. -/
structure FieldManager where
  typeConverter : TypeConverter
  objectConverter : Option ObjectConvertor
  objectDefaulter : Option ObjectDefaulter
  objectCreater : Option ObjectCreater
  kind : GroupVersionKind
  groupVersion : GroupVersion
  hub : GroupVersion
  subresource : String
  resetFields : List (APIVersion × Option (List FieldPath))
deriving DecidableEq, Repr

/-- Library function `managedfields.NewDefaultFieldManager`: it fails when the type
converter is `nil` ("typeconverter must not be nil"), and otherwise wraps a structured
merge manager for `kind.GroupVersion()` in the default chain of managers. -/
def managedfields.NewDefaultFieldManager (typeConverter : Option TypeConverter)
    (objectConverter : Option ObjectConvertor) (objectDefaulter : Option ObjectDefaulter)
    (objectCreater : Option ObjectCreater) (kind : GroupVersionKind) (hub : GroupVersion)
    (subresource : String) (resetFields : List (APIVersion × Option (List FieldPath))) :
    Option FieldManager × Option Err :=
  match typeConverter with
  | none => (none, some ⟨"failed to create field manager: typeconverter must not be nil"⟩)
  | some typeConverter =>
    (some { typeConverter := typeConverter, objectConverter := objectConverter,
            objectDefaulter := objectDefaulter, objectCreater := objectCreater,
            kind := kind, groupVersion := kind.GroupVersion, hub := hub,
            subresource := subresource, resetFields := resetFields }, none)

/-- The part of the library `Apply` does not reach without an object creater and an
object converter: the first-apply bookkeeping that starts from `objectCreater.New`, and
the structured merge that starts from `objectConverter.ConvertToVersion`. -/
structure Remainder where
  beforeFirstApply : FieldManager → ObjectCreater → RuntimeObject → RuntimeObject →
    String → Bool → ApplyOutcome
  merge : FieldManager → ObjectConvertor → RuntimeObject → RuntimeObject →
    String → Bool → ApplyOutcome

/-- Library method `(*FieldManager).Apply`, through the default chain of managers, up to
the first use of the object creater or of the object converter.  Error messages are
given by their fixed part. -/
def FieldManager.Apply (rest : Remainder) (f : Option FieldManager)
    (liveObj appliedObj : RuntimeObject) (manager : String) (force : Bool) : ApplyOutcome :=
  -- (*FieldManager).Apply: accessor and managed fields of the live object
  if !liveObj.hasMetadata then ApplyOutcome.failed "couldn't get accessor"
  else if !liveObj.decodable then ApplyOutcome.failed "failed to decode managed fields"
  else
  match f with
  | none => ApplyOutcome.nilDereference
  | some f =>
  -- versionCheckManager.Apply
  if appliedObj.gvk ≠ f.kind then
    ApplyOutcome.badRequest ("invalid object type: " ++ appliedObj.gvk.String)
  else
  -- lastAppliedUpdater.Apply and lastAppliedManager.Apply call the inner manager first
  -- skipNonAppliedManager.Apply
  if liveObj.entries.isEmpty then
    match f.objectCreater with
    | none => ApplyOutcome.nilDereference
    | some creater => rest.beforeFirstApply f creater liveObj appliedObj manager force
  else
  -- capManagersManager, buildManagerInfoManager, managedFieldsUpdater and
  -- stripMetaManager call the inner manager first
  -- structuredMergeManager.Apply
  if appliedObj.gvk.GroupVersion ≠ f.groupVersion then
    ApplyOutcome.badRequest "Incorrect version specified in apply patch"
  else if !appliedObj.hasMetadata then ApplyOutcome.failed "couldn't get accessor"
  else if appliedObj.managedFields.isSome then
    ApplyOutcome.badRequest "metadata.managedFields must be nil"
  else
    match f.objectConverter with
    | none => ApplyOutcome.nilDereference
    | some converter => rest.merge f converter liveObj appliedObj manager force

/-! ## Naming -/

/-- Type `handlers.ContextBasedNaming`: the struct stored in the scope's `Namer` slot. -/
structure ContextBasedNaming where
  Namer : Option MetadataAccessor
  ClusterScoped : Bool
deriving DecidableEq, Repr

/-- Error `IdentityError` of the naming contract. -/
structure IdentityError where
  msg : String
deriving DecidableEq, Repr

/-- Modelled from the spec: section 4.1, "given an opaque object handle, return
(namespace, name, isClusterScoped)".  The methods of `handlers.ContextBasedNaming` are not
among the sources: namespace and name come from the generic accessor `lookup` (which
fails with `IdentityError`), the third component is the namer's `ClusterScoped` flag. -/
def ContextBasedNaming.naming {Handle : Type} (n : ContextBasedNaming)
    (lookup : Handle → Except IdentityError (String × String)) (obj : Handle) :
    Except IdentityError (String × String × Bool) :=
  match lookup obj with
  | Except.error e => Except.error e
  | Except.ok (ns, name) => Except.ok (ns, name, n.ClusterScoped)

/-! ## The request scope -/

/-- Type `handlers.RequestScope`, with the fields the constructor names (the two it leaves
commented out, `Creater` and `UnsafeConvertor`, keep their zero value `nil`). -/
structure RequestScope where
  Namer : Option ContextBasedNaming
  Serializer : Option NegotiatedSerializer
  ParameterCodec : Option ParameterCodec
  Creater : Option ObjectCreater := none
  Convertor : Option ObjectConvertor
  Defaulter : Option ObjectDefaulter
  Typer : Option ObjectTyper
  UnsafeConvertor : Option ObjectConvertor := none
  Authorizer : Option Authorizer
  EquivalentResourceMapper : Option EquivalentResourceRegistry
  TableConvertor : Option TableConvertor
  FieldManager : Option FieldManager
  Resource : GroupVersionResource
  Subresource : String
  Kind : GroupVersionKind
  HubGroupVersion : GroupVersion
  MetaGroupVersion : GroupVersion
  MaxRequestBodyBytes : Int

/-- Functions and variables of other packages that `NewRequestScope` uses.  Each
constructor may return `nil`; the two of `managedfields` also return an error.
`NewFakeObjectDefaulter n` is the result of the `n`-th call (from 0) of that constructor
within one run of `NewRequestScope`. -/
structure Externals where
  NewTypeConverter : List (String × Option Schema) → Bool → Option TypeConverter × Option Err
  NewDefaultFieldManager : Option TypeConverter → Option ObjectConvertor →
    Option ObjectDefaulter → Option ObjectCreater → GroupVersionKind → GroupVersion →
    String → List (APIVersion × Option (List FieldPath)) → Option FieldManager × Option Err
  NewFakeObjectDefaulter : Nat → Option ObjectDefaulter
  NewAccessor : Option MetadataAccessor
  NewNegotiatedSerializer : Option NegotiatedSerializer
  ParameterCodec : Option ParameterCodec
  NewFakeObjectConvertor : Option ObjectConvertor
  NewUnstructuredObjectTyper : Option ObjectTyper
  NewAlwaysAllowAuthorizer : Option Authorizer
  NewEquivalentResourceRegistry : Option EquivalentResourceRegistry
  SchemeGroupVersion : GroupVersion

/-- Go conversion `int64(n)`: the value of `n` in two's complement on 64 bits. -/
def int64 (n : Int) : Int :=
  (n + 2 ^ 63) % 2 ^ 64 - 2 ^ 63

/-- The field manager `NewRequestScope` builds first: a type converter over an empty
schema map, then the default field manager over it; both errors are assigned to `_`. -/
def fakeFieldManager (ext : Externals) : Option FieldManager :=
  let fakeTypeConverter := (ext.NewTypeConverter [] false).1
  (ext.NewDefaultFieldManager fakeTypeConverter none (ext.NewFakeObjectDefaulter 0) none
    {} {} "" []).1

/-- Function `NewRequestScope`: the result is the address of the composite literal, never `nil`. -/
def NewRequestScope (ext : Externals) : Option RequestScope :=
  let fakeFieldManager := fakeFieldManager ext
  let requestScope : RequestScope :=
    { Namer := some { Namer := ext.NewAccessor, ClusterScoped := false }
      Serializer := ext.NewNegotiatedSerializer
      ParameterCodec := ext.ParameterCodec
      Convertor := ext.NewFakeObjectConvertor
      Defaulter := ext.NewFakeObjectDefaulter 1
      Typer := ext.NewUnstructuredObjectTyper
      Authorizer := ext.NewAlwaysAllowAuthorizer
      EquivalentResourceMapper := ext.NewEquivalentResourceRegistry
      TableConvertor := none
      FieldManager := fakeFieldManager
      Resource := {}
      Subresource := ""
      Kind := {}
      HubGroupVersion := {}
      MetaGroupVersion := ext.SchemeGroupVersion
      MaxRequestBodyBytes := int64 (3 * 1024 * 1024) }
  some requestScope

/-- An environment in which every constructor succeeds, with the always-allow authorizer
and the library's field-manager constructor; instance addresses are all distinct. -/
def sampleExternals : Externals :=
  { NewTypeConverter := fun _ _ => (some ⟨1⟩, none)
    NewDefaultFieldManager := managedfields.NewDefaultFieldManager
    NewFakeObjectDefaulter := fun n => some ⟨2 + n⟩
    NewAccessor := some ⟨4⟩
    NewNegotiatedSerializer := some ⟨5⟩
    ParameterCodec := some ⟨6⟩
    NewFakeObjectConvertor := some ⟨7⟩
    NewUnstructuredObjectTyper := some ⟨8⟩
    NewAlwaysAllowAuthorizer := fakers.NewAlwaysAllowAuthorizer
    NewEquivalentResourceRegistry := some ⟨9⟩
    SchemeGroupVersion := { Group := "meta.k8s.io", Version := "v1" } }

/-- An environment whose two `managedfields` constructors fail: each returns `nil` and an
error. -/
def failingExternals : Externals :=
  { sampleExternals with
    NewTypeConverter := fun _ _ => (none, some ⟨"no schema"⟩)
    NewDefaultFieldManager := fun _ _ _ _ _ _ _ _ => (none, some ⟨"no type converter"⟩) }

/-! ## Properties stated about the request scope -/

/-- The eight capability slots of scope `s` hold what the constructors of `ext` returned:
the namer wraps the accessor, the defaulter is the result of the second call of its
constructor (the first went to the field manager), and no slot is `nil`. -/
def CapabilitiesSet (ext : Externals) (s : RequestScope) : Prop :=
  (s.Namer = some { Namer := ext.NewAccessor, ClusterScoped := false }
    ∧ s.Serializer = ext.NewNegotiatedSerializer
    ∧ s.Convertor = ext.NewFakeObjectConvertor
    ∧ s.Defaulter = ext.NewFakeObjectDefaulter 1
    ∧ s.Typer = ext.NewUnstructuredObjectTyper
    ∧ s.Authorizer = ext.NewAlwaysAllowAuthorizer
    ∧ s.EquivalentResourceMapper = ext.NewEquivalentResourceRegistry
    ∧ s.FieldManager =
        (ext.NewDefaultFieldManager (ext.NewTypeConverter [] false).1 none
          (ext.NewFakeObjectDefaulter 0) none {} {} "" []).1)
  ∧ (s.Namer.isSome = true ∧ s.Serializer.isSome = true ∧ s.Convertor.isSome = true
    ∧ s.Defaulter.isSome = true ∧ s.Typer.isSome = true ∧ s.Authorizer.isSome = true
    ∧ s.EquivalentResourceMapper.isSome = true ∧ s.FieldManager.isSome = true)

/-- A remainder of the library whose merge and first-apply steps, if they were reached,
would report a conflict on `"x"`. -/
def conflictingRemainder : Remainder :=
  { beforeFirstApply := fun _ _ _ _ _ _ => ApplyOutcome.conflict { fields := ["x"] }
    merge := fun _ _ _ _ _ _ => ApplyOutcome.conflict { fields := ["x"] } }

/-- A stored ConfigMap with the top-level field `"x"` and no managed fields yet. -/
def sampleLiveObject : RuntimeObject :=
  { gvk := { Group := "", Version := "v1", Kind := "ConfigMap" }
    hasMetadata := true
    managedFields := none
    payload := [("x", "0")] }

/-- An applied configuration of the same ConfigMap that claims `"x"`. -/
def sampleAppliedObject (value : String) : RuntimeObject :=
  { gvk := { Group := "", Version := "v1", Kind := "ConfigMap" }
    hasMetadata := true
    managedFields := none
    payload := [("x", value)] }

/-- An `Apply` through field manager `fm` ends before any merge: it neither reports a
`FieldConflict` nor succeeds.  On a live object with metadata and decodable managed
fields it is the bad request "invalid object type" when `fm` is not `nil` and the applied
object's group/version/kind is not the empty one, and a nil dereference when `fm` is
`nil`, or when the kind is empty and the live object has no managed fields. -/
def ApplyEndsEarly (rest : Remainder) (fm : Option FieldManager)
    (liveObj appliedObj : RuntimeObject) (manager : String) (force : Bool) : Prop :=
  (∀ c, FieldManager.Apply rest fm liveObj appliedObj manager force ≠ ApplyOutcome.conflict c)
  ∧ (∀ o, FieldManager.Apply rest fm liveObj appliedObj manager force ≠ ApplyOutcome.applied o)
  ∧ (liveObj.hasMetadata = true → liveObj.decodable = true → fm.isSome = true →
      appliedObj.gvk ≠ {} →
      FieldManager.Apply rest fm liveObj appliedObj manager force
        = ApplyOutcome.badRequest ("invalid object type: " ++ appliedObj.gvk.String))
  ∧ (liveObj.hasMetadata = true → liveObj.decodable = true →
      (fm = none ∨ (appliedObj.gvk = {} ∧ liveObj.entries = [])) →
      FieldManager.Apply rest fm liveObj appliedObj manager force
        = ApplyOutcome.nilDereference)

end scope

namespace v1alpha1

/-! ## Go standard library functions used by the configuration builders -/

/-- Go `net.JoinHostPort`: "host:port", and "[host]:port" if host contains a colon. -/
def JoinHostPort (host port : String) : String :=
  if ':' ∈ host.data then "[" ++ host ++ "]:" ++ port else host ++ ":" ++ port

/-- Go `strconv.Itoa`: decimal text of an integer. -/
def Itoa (i : Int) : String :=
  toString i

/-- Bytes of a character in UTF-8, the encoding of a Go string. -/
def utf8Bytes (c : Char) : List Nat :=
  let v := c.toNat
  if v < 0x80 then [v]
  else if v < 0x800 then [0xC0 + v / 64, 0x80 + v % 64]
  else if v < 0x10000 then [0xE0 + v / 4096, 0x80 + v / 64 % 64, 0x80 + v % 64]
  else [0xF0 + v / 262144, 0x80 + v / 4096 % 64, 0x80 + v / 64 % 64, 0x80 + v % 64]

/-- Bytes that `net/url` writes unescaped in a host (`shouldEscape(c, encodeHost)` is
false): letters and digits, the sub-delimiters and `: [ ] < > "` allowed in a host, and
the unreserved marks `- _ . ~`. -/
def hostSafeBytes : List Nat :=
  ("abcdefghijklmnopqrstuvwxyzABCDEFGHIJKLMNOPQRSTUVWXYZ0123456789".data
    ++ "!$&'()*+,;=:[]<>\"".data ++ "-_.~".data).map Char.toNat

/-- Go `shouldEscape(c, encodeHost)` of `net/url`, on a byte. -/
def shouldEscapeHost (c : Nat) : Bool :=
  decide (c ∉ hostSafeBytes)

/-- Upper-case hexadecimal digit of a value below 16. -/
def upperhex (n : Nat) : Char :=
  "0123456789ABCDEF".data.getD n '0'

/-- One byte as `escape(s, encodeHost)` of `net/url` writes it: itself, or `%XX`. -/
def escapeHostByte (b : Nat) : List Char :=
  if shouldEscapeHost b then ['%', upperhex (b / 16), upperhex (b % 16)]
  else [Char.ofNat b]

/-- Go `escape(s, encodeHost)` of `net/url`. -/
def escapeHost (s : String) : String :=
  String.mk ((s.data.flatMap utf8Bytes).flatMap escapeHostByte)

/-- Type `url.URL`, with the two fields the builders set; every other field is zero. -/
structure URL where
  Scheme : String := ""
  Host : String := ""
deriving DecidableEq, Repr

/-- Go `(*url.URL).String` for a URL whose fields other than `Scheme` and `Host` are zero:
the scheme with a colon when there is one, then `//` and the escaped host when there is
a host; opaque part, user, path, query and fragment are empty and write nothing. -/
def URL.String (u : URL) : String :=
  let buf := if u.Scheme ≠ "" then u.Scheme ++ ":" else ""
  if u.Scheme ≠ "" ∨ u.Host ≠ "" then
    let buf := if u.Host ≠ "" then buf ++ "//" else buf
    if u.Host ≠ "" then buf ++ escapeHost u.Host else buf
  else buf

/-! ## Configuration types -/

/-- Type `metav1.TypeMeta`. -/
structure TypeMeta where
  Kind : String := ""
  APIVersion : String := ""
deriving DecidableEq, Repr

/-- Type `kubeletoptions.KubeletFlags`: the three flags the builders assign, and the rest of
the flags as the constructor left them. -/
structure KubeletFlags where
  HostnameOverride : String
  NodeIP : String
  KubeConfig : String
  Remaining : List (String × String)
deriving DecidableEq, Repr

/-- Type `kubeletconfig.KubeletConfiguration`: the fields the builders assign, and the rest of
the configuration as the constructor left it. -/
structure KubeletConfiguration where
  AuthorizationMode : String
  ContentType : String
  NodeStatusUpdateFrequency : Int
  VolumeStatsAggPeriod : Int
  ImageGCLowThresholdPercent : Int
  ImageGCHighThresholdPercent : Int
  Remaining : List (String × String)
deriving DecidableEq, Repr

/-- Type `kubeletoptions.KubeletServer`: copies of the flags and of the configuration. -/
structure KubeletServer where
  KubeletFlags : KubeletFlags
  KubeletConfiguration : KubeletConfiguration
deriving DecidableEq, Repr

/-- Section type `DataBase`. -/
structure DataBase where
  DriverName : String := ""
  AliasName : String := ""
  DataSource : String := ""
deriving DecidableEq, Repr

/-- Section type `Edged`. -/
structure Edged where
  KubeletServer : KubeletServer
  CustomInterfaceName : String := ""
deriving DecidableEq, Repr

/-- Section type `EdgeHubQUIC`. -/
structure EdgeHubQUIC where
  Enable : Bool := false
  HandshakeTimeout : Int := 0
  ReadDeadline : Int := 0
  Server : String := ""
  WriteDeadline : Int := 0
deriving DecidableEq, Repr

/-- Section type `EdgeHubWebSocket`. -/
structure EdgeHubWebSocket where
  Enable : Bool := false
  HandshakeTimeout : Int := 0
  ReadDeadline : Int := 0
  Server : String := ""
  WriteDeadline : Int := 0
deriving DecidableEq, Repr

/-- Section type `EdgeHub`. -/
structure EdgeHub where
  Enable : Bool := false
  Heartbeat : Int := 0
  ProjectID : String := ""
  TLSCAFile : String := ""
  TLSCertFile : String := ""
  TLSPrivateKeyFile : String := ""
  Quic : Option EdgeHubQUIC := none
  WebSocket : Option EdgeHubWebSocket := none
  HTTPServer : String := ""
  Token : String := ""
  RotateCertificates : Bool := false
deriving DecidableEq, Repr

/-- Section type `EventBusTLS`. -/
structure EventBusTLS where
  Enable : Bool := false
  TLSMqttCAFile : String := ""
  TLSMqttCertFile : String := ""
  TLSMqttPrivateKeyFile : String := ""
deriving DecidableEq, Repr

/-- Section type `EventBus`. -/
structure EventBus where
  Enable : Bool := false
  MqttQOS : Int := 0
  MqttRetain : Bool := false
  MqttSessionQueueSize : Int := 0
  MqttServerExternal : String := ""
  MqttServerInternal : String := ""
  MqttSubClientID : String := ""
  MqttPubClientID : String := ""
  MqttUsername : String := ""
  MqttPassword : String := ""
  MqttMode : Int := 0
  TLS : Option EventBusTLS := none
deriving DecidableEq, Repr

/-- Section type `MetaServer`. -/
structure MetaServer where
  Enable : Bool := false
  Server : String := ""
deriving DecidableEq, Repr

/-- Section type `MetaManager`. -/
structure MetaManager where
  Enable : Bool := false
  ContextSendGroup : String := ""
  ContextSendModule : String := ""
  PodStatusSyncInterval : Int := 0
  RemoteQueryTimeout : Int := 0
  MetaServer : Option MetaServer := none
deriving DecidableEq, Repr

/-- Section type `ServiceBus`. -/
structure ServiceBus where
  Enable : Bool := false
  Server : String := ""
  Port : Int := 0
  Timeout : Int := 0
deriving DecidableEq, Repr

/-- Section type `DeviceTwin`. -/
structure DeviceTwin where
  Enable : Bool := false
deriving DecidableEq, Repr

/-- Section type `DBTest`. -/
structure DBTest where
  Enable : Bool := false
deriving DecidableEq, Repr

/-- Section type `EdgeStream`. -/
structure EdgeStream where
  Enable : Bool := false
  TLSTunnelCAFile : String := ""
  TLSTunnelCertFile : String := ""
  TLSTunnelPrivateKeyFile : String := ""
  HandshakeTimeout : Int := 0
  ReadDeadline : Int := 0
  TunnelServer : String := ""
  WriteDeadline : Int := 0
deriving DecidableEq, Repr

/-- Type `Modules`: one pointer per module section. -/
structure Modules where
  Edged : Option Edged := none
  EdgeHub : Option EdgeHub := none
  EventBus : Option EventBus := none
  MetaManager : Option MetaManager := none
  ServiceBus : Option ServiceBus := none
  DeviceTwin : Option DeviceTwin := none
  DBTest : Option DBTest := none
  EdgeStream : Option EdgeStream := none
deriving DecidableEq, Repr

/-- Type `EdgeCoreConfig`. -/
structure EdgeCoreConfig where
  TypeMeta : TypeMeta := {}
  DataBase : Option DataBase := none
  Modules : Option Modules := none
deriving DecidableEq, Repr

/-- Constants declared outside `default.go`: those of package `constants`, of this
package (`Kind`, `GroupName`, `APIVersion`, the `DataBase...` names, `MqttModeExternal`),
of `metaconfig` and of `kubeletconfig`.  Their values are not fixed here. -/
structure Constants where
  DefaultKubeletConfig : String
  KubeletAuthorizationModeAlwaysAllow : String
  DefaultNodeStatusUpdateFrequency : Int
  DefaultVolumeStatsAggPeriod : Int
  DefaultImageGCLowThreshold : Int
  DefaultImageGCHighThreshold : Int
  Kind : String
  GroupName : String
  APIVersion : String
  DataBaseDriverName : String
  DataBaseAliasName : String
  DataBaseDataSource : String
  DefaultCAFile : String
  DefaultCertFile : String
  DefaultKeyFile : String
  MqttModeExternal : Int
  DefaultMqttCAFile : String
  DefaultMqttCertFile : String
  DefaultMqttKeyFile : String
  GroupNameHub : String
  ModuleNameEdgeHub : String
  DefaultPodStatusSyncInterval : Int
  DefaultRemoteQueryTimeout : Int
  DefaultMetaServerAddr : String
  DefaultTunnelPort : Int
deriving DecidableEq, Repr

/-- Functions of other packages the builders call: the host name, the local-IP lookup
(a string and an error), the two kubelet constructors (pointers, the second with an
error) and `path.Join`. -/
structure Host where
  GetHostname : String
  GetLocalIP : String → String × Option Err
  NewKubeletFlags : Option KubeletFlags
  NewKubeletConfiguration : Option KubeletConfiguration × Option Err
  pathJoin : String → String → String

/-- How a run of a builder ends: it returns, or the process exits (`os.Exit`, after the
message logged by `klog.ErrorS`), or it stops on a nil-pointer dereference. -/
inductive Outcome (α : Type) where
  | returned (a : α)
  | exited (logged : String) (err : Err) (code : Int)
  | nilDereference
deriving DecidableEq, Repr

/-- Message `klog.ErrorS` logs before `os.Exit(1)`. -/
def kubeletConfigurationFailure : String :=
  "Failed to create a new kubelet configuration"

/-- Function `NewDefaultEdgeCoreConfig` returns a full EdgeCoreConfig object. -/
def NewDefaultEdgeCoreConfig (c : Constants) (h : Host) : Outcome (Option EdgeCoreConfig) :=
  let hostnameOverride := h.GetHostname
  let localIP := (h.GetLocalIP hostnameOverride).1
  match h.NewKubeletFlags with
  | none => Outcome.nilDereference
  | some kubeletFlags =>
    let kubeletFlags := { kubeletFlags with
      HostnameOverride := hostnameOverride
      NodeIP := localIP
      KubeConfig := c.DefaultKubeletConfig }
    let kubeletConfig := h.NewKubeletConfiguration.1
    let err := h.NewKubeletConfiguration.2
    match err with
    | some err => Outcome.exited kubeletConfigurationFailure err 1
    | none =>
    match kubeletConfig with
    | none => Outcome.nilDereference
    | some kubeletConfig =>
      let kubeletConfig := { kubeletConfig with
        AuthorizationMode := c.KubeletAuthorizationModeAlwaysAllow
        ContentType := "application/json"
        NodeStatusUpdateFrequency := c.DefaultNodeStatusUpdateFrequency
        VolumeStatsAggPeriod := c.DefaultVolumeStatsAggPeriod
        ImageGCLowThresholdPercent := c.DefaultImageGCLowThreshold
        ImageGCHighThresholdPercent := c.DefaultImageGCHighThreshold }
      let kubeletserver : KubeletServer :=
        { KubeletFlags := kubeletFlags, KubeletConfiguration := kubeletConfig }
      Outcome.returned (some
        { TypeMeta := { Kind := c.Kind, APIVersion := h.pathJoin c.GroupName c.APIVersion }
          DataBase := some
            { DriverName := c.DataBaseDriverName
              AliasName := c.DataBaseAliasName
              DataSource := c.DataBaseDataSource }
          Modules := some
            { Edged := some
                { KubeletServer := kubeletserver
                  CustomInterfaceName := "" }
              EdgeHub := some
                { Enable := true
                  Heartbeat := 15
                  ProjectID := "e632aba927ea4ac2b575ec1603d56f10"
                  TLSCAFile := c.DefaultCAFile
                  TLSCertFile := c.DefaultCertFile
                  TLSPrivateKeyFile := c.DefaultKeyFile
                  Quic := some
                    { Enable := false
                      HandshakeTimeout := 30
                      ReadDeadline := 15
                      Server := JoinHostPort localIP "10001"
                      WriteDeadline := 15 }
                  WebSocket := some
                    { Enable := true
                      HandshakeTimeout := 30
                      ReadDeadline := 15
                      Server := JoinHostPort localIP "10000"
                      WriteDeadline := 15 }
                  HTTPServer := URL.String
                    { Scheme := "https"
                      Host := JoinHostPort localIP "10002" }
                  Token := ""
                  RotateCertificates := true }
              EventBus := some
                { Enable := true
                  MqttQOS := 0
                  MqttRetain := false
                  MqttSessionQueueSize := 100
                  MqttServerExternal := "tcp://127.0.0.1:1883"
                  MqttServerInternal := "tcp://127.0.0.1:1884"
                  MqttSubClientID := ""
                  MqttPubClientID := ""
                  MqttUsername := ""
                  MqttPassword := ""
                  MqttMode := c.MqttModeExternal
                  TLS := some
                    { Enable := false
                      TLSMqttCAFile := c.DefaultMqttCAFile
                      TLSMqttCertFile := c.DefaultMqttCertFile
                      TLSMqttPrivateKeyFile := c.DefaultMqttKeyFile } }
              MetaManager := some
                { Enable := true
                  ContextSendGroup := c.GroupNameHub
                  ContextSendModule := c.ModuleNameEdgeHub
                  PodStatusSyncInterval := c.DefaultPodStatusSyncInterval
                  RemoteQueryTimeout := c.DefaultRemoteQueryTimeout
                  MetaServer := some
                    { Enable := true
                      Server := c.DefaultMetaServerAddr } }
              ServiceBus := some
                { Enable := false
                  Server := "127.0.0.1"
                  Port := 9060
                  Timeout := 60 }
              DeviceTwin := some { Enable := true }
              DBTest := some { Enable := false }
              EdgeStream := some
                { Enable := false
                  TLSTunnelCAFile := c.DefaultCAFile
                  TLSTunnelCertFile := c.DefaultCertFile
                  TLSTunnelPrivateKeyFile := c.DefaultKeyFile
                  HandshakeTimeout := 30
                  ReadDeadline := 15
                  TunnelServer := JoinHostPort "127.0.0.1" (Itoa c.DefaultTunnelPort)
                  WriteDeadline := 15 } } })

/-- Function `NewMinEdgeCoreConfig` returns a common EdgeCoreConfig object. -/
def NewMinEdgeCoreConfig (c : Constants) (h : Host) : Outcome (Option EdgeCoreConfig) :=
  let hostnameOverride := h.GetHostname
  let localIP := (h.GetLocalIP hostnameOverride).1
  match h.NewKubeletFlags with
  | none => Outcome.nilDereference
  | some kubeletFlags =>
    let kubeletFlags := { kubeletFlags with
      HostnameOverride := hostnameOverride
      NodeIP := localIP
      KubeConfig := c.DefaultKubeletConfig }
    let kubeletConfig := h.NewKubeletConfiguration.1
    let err := h.NewKubeletConfiguration.2
    match err with
    | some err => Outcome.exited kubeletConfigurationFailure err 1
    | none =>
    match kubeletConfig with
    | none => Outcome.nilDereference
    | some kubeletConfig =>
      let kubeletConfig := { kubeletConfig with ContentType := "application/json" }
      let kubeletserver : KubeletServer :=
        { KubeletFlags := kubeletFlags, KubeletConfiguration := kubeletConfig }
      Outcome.returned (some
        { TypeMeta := { Kind := c.Kind, APIVersion := h.pathJoin c.GroupName c.APIVersion }
          DataBase := some { DataSource := c.DataBaseDataSource }
          Modules := some
            { Edged := some { KubeletServer := kubeletserver }
              EdgeHub := some
                { Heartbeat := 15
                  TLSCAFile := c.DefaultCAFile
                  TLSCertFile := c.DefaultCertFile
                  TLSPrivateKeyFile := c.DefaultKeyFile
                  WebSocket := some
                    { Enable := true
                      HandshakeTimeout := 30
                      ReadDeadline := 15
                      Server := JoinHostPort localIP "10000"
                      WriteDeadline := 15 }
                  HTTPServer := URL.String
                    { Scheme := "https"
                      Host := JoinHostPort localIP "10002" }
                  Token := "" }
              EventBus := some
                { MqttQOS := 0
                  MqttRetain := false
                  MqttServerExternal := "tcp://127.0.0.1:1883"
                  MqttServerInternal := "tcp://127.0.0.1:1884"
                  MqttSubClientID := ""
                  MqttPubClientID := ""
                  MqttUsername := ""
                  MqttPassword := ""
                  MqttMode := c.MqttModeExternal } } })

/-- Sample values for the constants declared outside `default.go`. -/
def sampleConstants : Constants :=
  { DefaultKubeletConfig := "/etc/kubeedge/config/kubeconfig"
    KubeletAuthorizationModeAlwaysAllow := "AlwaysAllow"
    DefaultNodeStatusUpdateFrequency := 10000000000
    DefaultVolumeStatsAggPeriod := 60000000000
    DefaultImageGCLowThreshold := 40
    DefaultImageGCHighThreshold := 80
    Kind := "EdgeCore"
    GroupName := "edgecore.config.kubeedge.io"
    APIVersion := "v1alpha2"
    DataBaseDriverName := "sqlite3"
    DataBaseAliasName := "default"
    DataBaseDataSource := "/var/lib/kubeedge/edgecore.db"
    DefaultCAFile := "/etc/kubeedge/ca/rootCA.crt"
    DefaultCertFile := "/etc/kubeedge/certs/server.crt"
    DefaultKeyFile := "/etc/kubeedge/certs/server.key"
    MqttModeExternal := 2
    DefaultMqttCAFile := "/etc/kubeedge/ca/rootCA.crt"
    DefaultMqttCertFile := "/etc/kubeedge/certs/server.crt"
    DefaultMqttKeyFile := "/etc/kubeedge/certs/server.key"
    GroupNameHub := "hub"
    ModuleNameEdgeHub := "websocket"
    DefaultPodStatusSyncInterval := 60
    DefaultRemoteQueryTimeout := 60
    DefaultMetaServerAddr := "127.0.0.1:10550"
    DefaultTunnelPort := 10004 }

/-- Sample kubelet flags as their constructor could return them. -/
def sampleKubeletFlags : KubeletFlags :=
  { HostnameOverride := "", NodeIP := "", KubeConfig := "", Remaining := [] }

/-- Sample kubelet configuration as its constructor could return it. -/
def sampleKubeletConfiguration : KubeletConfiguration :=
  { AuthorizationMode := "Webhook", ContentType := "application/vnd.kubernetes.protobuf"
    NodeStatusUpdateFrequency := 10000000000, VolumeStatsAggPeriod := 60000000000
    ImageGCLowThresholdPercent := 80, ImageGCHighThresholdPercent := 85, Remaining := [] }

/-- A host on which every lookup and constructor succeeds; the local IP is `ip`. -/
def sampleHost (ip : String) : Host :=
  { GetHostname := "edge-node"
    GetLocalIP := fun _ => (ip, none)
    NewKubeletFlags := some sampleKubeletFlags
    NewKubeletConfiguration := (some sampleKubeletConfiguration, none)
    pathJoin := fun a b => a ++ "/" ++ b }

/-- A host whose kubelet-configuration constructor fails: `nil` and an error. -/
def failingHost : Host :=
  { sampleHost "192.168.1.10" with
    NewKubeletConfiguration := (none, some ⟨"invalid kubelet configuration"⟩) }

/-! ## Properties stated about the configuration builders -/

/-- Every byte of `s` is written unescaped in a URL host. -/
def HostSafe (s : String) : Prop :=
  ∀ ch ∈ s.data, ch.toNat ∈ hostSafeBytes

/-- Every section `NewDefaultEdgeCoreConfig` populates is present in `r`: the object, its
`DataBase` and `Modules`, the eight module sections and the four nested sections. -/
def FullConfig (r : Option EdgeCoreConfig) : Prop :=
  ∃ cfg db m edged hub quic ws bus tls mm ms sb dt dbt es,
    r = some cfg ∧ cfg.DataBase = some db ∧ cfg.Modules = some m
    ∧ m.Edged = some edged ∧ m.EdgeHub = some hub ∧ hub.Quic = some quic
    ∧ hub.WebSocket = some ws ∧ m.EventBus = some bus ∧ bus.TLS = some tls
    ∧ m.MetaManager = some mm ∧ mm.MetaServer = some ms ∧ m.ServiceBus = some sb
    ∧ m.DeviceTwin = some dt ∧ m.DBTest = some dbt ∧ m.EdgeStream = some es

/-- The EdgeHub endpoints of configuration `cfg` for local IP `ip`. -/
def EdgeHubEndpoints (cfg : EdgeCoreConfig) (ip : String) : Prop :=
  ∃ m hub quic ws, cfg.Modules = some m ∧ m.EdgeHub = some hub
    ∧ hub.Quic = some quic ∧ hub.WebSocket = some ws
    ∧ ws.Server = JoinHostPort ip "10000"
    ∧ quic.Server = JoinHostPort ip "10001"
    ∧ hub.HTTPServer = "https://" ++ escapeHost (JoinHostPort ip "10002")
    ∧ (HostSafe ip → hub.HTTPServer = "https://" ++ JoinHostPort ip "10002")
    ∧ (ws.Server ≠ quic.Server ∧ ws.Server ≠ JoinHostPort ip "10002"
        ∧ quic.Server ≠ JoinHostPort ip "10002")
    ∧ (∀ port, JoinHostPort ip port =
        if ':' ∈ ip.data then "[" ++ ip ++ "]:" ++ port else ip ++ ":" ++ port)

/-- Every field `NewMinEdgeCoreConfig` sets explicitly has in `min` the value it has in
`dflt`. -/
def MinFieldsAgree (min dflt : EdgeCoreConfig) : Prop :=
  ∃ mdb ddb mm dm me de mh dh mb db,
    min.DataBase = some mdb ∧ dflt.DataBase = some ddb
    ∧ min.Modules = some mm ∧ dflt.Modules = some dm
    ∧ mm.Edged = some me ∧ dm.Edged = some de
    ∧ mm.EdgeHub = some mh ∧ dm.EdgeHub = some dh
    ∧ mm.EventBus = some mb ∧ dm.EventBus = some db
    ∧ min.TypeMeta = dflt.TypeMeta
    ∧ mdb.DataSource = ddb.DataSource
    ∧ me.KubeletServer.KubeletFlags.HostnameOverride
        = de.KubeletServer.KubeletFlags.HostnameOverride
    ∧ me.KubeletServer.KubeletFlags.NodeIP = de.KubeletServer.KubeletFlags.NodeIP
    ∧ me.KubeletServer.KubeletFlags.KubeConfig = de.KubeletServer.KubeletFlags.KubeConfig
    ∧ me.KubeletServer.KubeletConfiguration.ContentType
        = de.KubeletServer.KubeletConfiguration.ContentType
    ∧ mh.Heartbeat = dh.Heartbeat
    ∧ mh.TLSCAFile = dh.TLSCAFile
    ∧ mh.TLSCertFile = dh.TLSCertFile
    ∧ mh.TLSPrivateKeyFile = dh.TLSPrivateKeyFile
    ∧ mh.WebSocket = dh.WebSocket ∧ mh.WebSocket.isSome = true
    ∧ mh.HTTPServer = dh.HTTPServer
    ∧ mh.Token = dh.Token
    ∧ mb.MqttQOS = db.MqttQOS
    ∧ mb.MqttRetain = db.MqttRetain
    ∧ mb.MqttServerExternal = db.MqttServerExternal
    ∧ mb.MqttServerInternal = db.MqttServerInternal
    ∧ mb.MqttSubClientID = db.MqttSubClientID
    ∧ mb.MqttPubClientID = db.MqttPubClientID
    ∧ mb.MqttUsername = db.MqttUsername
    ∧ mb.MqttPassword = db.MqttPassword
    ∧ mb.MqttMode = db.MqttMode

/-- How both builders end, by the result of the kubelet-configuration constructor: exit
on an error, a nil dereference on `nil` without error, a configuration otherwise. -/
def BuildersOutcome (c : Constants) (h : Host) : Prop :=
  match h.NewKubeletConfiguration.2, h.NewKubeletConfiguration.1 with
  | some err, _ =>
    NewDefaultEdgeCoreConfig c h = Outcome.exited kubeletConfigurationFailure err 1
      ∧ NewMinEdgeCoreConfig c h = Outcome.exited kubeletConfigurationFailure err 1
  | none, none =>
    NewDefaultEdgeCoreConfig c h = Outcome.nilDereference
      ∧ NewMinEdgeCoreConfig c h = Outcome.nilDereference
  | none, some _ =>
    ∃ d m, NewDefaultEdgeCoreConfig c h = Outcome.returned (some d)
      ∧ NewMinEdgeCoreConfig c h = Outcome.returned (some m)

end v1alpha1

/-! # Theorems: request scope -/

namespace scope

/-- The scope is always returned, and it is the composite literal of the source. -/
theorem NewRequestScope_eq (ext : Externals) :
    NewRequestScope ext = some
      { Namer := some { Namer := ext.NewAccessor, ClusterScoped := false }
        Serializer := ext.NewNegotiatedSerializer
        ParameterCodec := ext.ParameterCodec
        Convertor := ext.NewFakeObjectConvertor
        Defaulter := ext.NewFakeObjectDefaulter 1
        Typer := ext.NewUnstructuredObjectTyper
        Authorizer := ext.NewAlwaysAllowAuthorizer
        EquivalentResourceMapper := ext.NewEquivalentResourceRegistry
        TableConvertor := none
        FieldManager := fakeFieldManager ext
        Resource := {}
        Subresource := ""
        Kind := {}
        HubGroupVersion := {}
        MetaGroupVersion := ext.SchemeGroupVersion
        MaxRequestBodyBytes := int64 (3 * 1024 * 1024) } :=
  rfl

/-- C1: when the capability constructors called by `NewRequestScope` return non-nil
values, the returned scope has its eight capabilities (Namer, Serializer, Convertor,
Defaulter, Typer, Authorizer, EquivalentResourceMapper, FieldManager) non-nil, each
being the value its constructor returned; the defaulter constructor is called twice, the
first result going to the field manager and the second into the scope. -/
theorem NewRequestScope_capabilities_set (ext : Externals)
    (hSerializer : ext.NewNegotiatedSerializer.isSome = true)
    (hConvertor : ext.NewFakeObjectConvertor.isSome = true)
    (hDefaulter : (ext.NewFakeObjectDefaulter 1).isSome = true)
    (hTyper : ext.NewUnstructuredObjectTyper.isSome = true)
    (hAuthorizer : ext.NewAlwaysAllowAuthorizer.isSome = true)
    (hMapper : ext.NewEquivalentResourceRegistry.isSome = true)
    (hFieldManager :
      (ext.NewDefaultFieldManager (ext.NewTypeConverter [] false).1 none
        (ext.NewFakeObjectDefaulter 0) none {} {} "" []).1.isSome = true) :
    ∃ s, NewRequestScope ext = some s ∧ CapabilitiesSet ext s := by
  refine ⟨_, NewRequestScope_eq ext, ?_, ?_⟩
  · exact ⟨rfl, rfl, rfl, rfl, rfl, rfl, rfl, rfl⟩
  · exact ⟨rfl, hSerializer, hConvertor, hDefaulter, hTyper, hAuthorizer, hMapper,
      hFieldManager⟩

/-- Witness of C1 at `sampleExternals`, where every constructor succeeds. -/
theorem NewRequestScope_capabilities_set_witness :
    ∃ s, NewRequestScope sampleExternals = some s ∧ CapabilitiesSet sampleExternals s :=
  NewRequestScope_capabilities_set sampleExternals rfl rfl rfl rfl rfl rfl rfl

/-- C2: when the authorizer constructor is the always-allow one, authorizing any request
(any verb, resource identity and user) through the scope's Authorizer gives Allow with no
error. -/
theorem NewRequestScope_authorizer_always_allow (ext : Externals)
    (hctor : ext.NewAlwaysAllowAuthorizer = fakers.NewAlwaysAllowAuthorizer) :
    ∃ s a, NewRequestScope ext = some s ∧ s.Authorizer = some a
      ∧ ∀ attrs : Attributes, a.Authorize attrs = (Decision.Allow, none) := by
  refine ⟨_, _, NewRequestScope_eq ext, hctor, ?_⟩
  intro attrs
  rfl

/-- Witness of C2 at `sampleExternals`. -/
theorem NewRequestScope_authorizer_always_allow_witness :
    ∃ s a, NewRequestScope sampleExternals = some s ∧ s.Authorizer = some a
      ∧ ∀ attrs : Attributes, a.Authorize attrs = (Decision.Allow, none) :=
  NewRequestScope_authorizer_always_allow sampleExternals rfl

/-- C3: every scope built carries `MaxRequestBodyBytes = 3 * 1024 * 1024 = 3145728`,
whatever the constructors return; the value is positive, the conversion to `int64` does
not wrap, and it fits in a signed 64-bit integer. -/
theorem NewRequestScope_max_request_body_bytes (ext : Externals) :
    ∃ s, NewRequestScope ext = some s
      ∧ s.MaxRequestBodyBytes = 3 * 1024 * 1024
      ∧ s.MaxRequestBodyBytes = 3145728
      ∧ 0 < s.MaxRequestBodyBytes
      ∧ int64 (3 * 1024 * 1024) = 3 * 1024 * 1024
      ∧ s.MaxRequestBodyBytes ≤ 2 ^ 63 - 1 := by
  refine ⟨_, NewRequestScope_eq ext, ?_, ?_, ?_, ?_, ?_⟩ <;> simp only [int64] <;> norm_num

/-- C4: for every outcome of the constructors, errors included, `NewRequestScope`
returns a non-nil scope; the errors are dropped and `FieldManager` is the value the
field-manager constructor returned, `nil` when it returned `nil`. -/
theorem NewRequestScope_never_fails (ext : Externals) :
    (∃ s, NewRequestScope ext = some s
      ∧ s.FieldManager =
          (ext.NewDefaultFieldManager (ext.NewTypeConverter [] false).1 none
            (ext.NewFakeObjectDefaulter 0) none {} {} "" []).1)
    ∧ (∃ s, NewRequestScope failingExternals = some s ∧ s.FieldManager.isNone = true) :=
  ⟨⟨_, NewRequestScope_eq ext, rfl⟩, ⟨_, NewRequestScope_eq failingExternals, rfl⟩⟩

/-- C8: the namer of every scope built has `ClusterScoped = false`, so the
isClusterScoped component of every naming result is false, whatever the object. -/
theorem NewRequestScope_namer_namespaced (ext : Externals) :
    ∃ s n, NewRequestScope ext = some s ∧ s.Namer = some n ∧ n.ClusterScoped = false
      ∧ ∀ (Handle : Type) (lookup : Handle → Except IdentityError (String × String))
          (obj : Handle) (r : String × String × Bool),
          n.naming lookup obj = Except.ok r → r.2.2 = false := by
  refine ⟨_, _, NewRequestScope_eq ext, rfl, rfl, ?_⟩
  intro Handle lookup obj r hr
  unfold ContextBasedNaming.naming at hr
  cases hl : lookup obj with
  | error e => rw [hl] at hr; cases hr
  | ok p =>
    obtain ⟨ns, name⟩ := p
    rw [hl] at hr
    cases hr
    rfl

/-! ## Field manager -/

/-- The field manager `NewRequestScope` obtains from the library's constructor: `nil` when
the type converter is `nil`, and otherwise one with no object converter, no object
creater and the empty kind. -/
theorem fakeFieldManager_of_library (ext : Externals)
    (hctor : ext.NewDefaultFieldManager = managedfields.NewDefaultFieldManager) :
    fakeFieldManager ext = none
      ∨ ∃ f, fakeFieldManager ext = some f ∧ f.objectConverter = none
          ∧ f.objectCreater = none ∧ f.kind = {} ∧ f.groupVersion = {} := by
  unfold fakeFieldManager
  rw [hctor]
  cases (ext.NewTypeConverter [] false).1 with
  | none => exact Or.inl rfl
  | some tc => exact Or.inr ⟨_, rfl, rfl, rfl, rfl, rfl⟩

/-- An `Apply` through no field manager, or through one without object converter and
object creater and with the empty kind, ends before any merge. -/
theorem apply_ends_early (rest : Remainder) (fm : Option FieldManager)
    (liveObj appliedObj : RuntimeObject) (manager : String) (force : Bool)
    (hfm : fm = none ∨ ∃ f, fm = some f ∧ f.objectConverter = none
      ∧ f.objectCreater = none ∧ f.kind = {} ∧ f.groupVersion = {}) :
    ApplyEndsEarly rest fm liveObj appliedObj manager force := by
  unfold ApplyEndsEarly
  rcases hfm with rfl | ⟨f, rfl, hconv, hcreate, hkind, hgv⟩
  · unfold FieldManager.Apply
    refine ⟨?_, ?_, ?_, ?_⟩
    · intro c; split_ifs <;> simp
    · intro o; split_ifs <;> simp
    · intro _ _ hsome; simp at hsome
    · intro hm hd _; simp [hm, hd]
  · unfold FieldManager.Apply
    simp only [hconv, hcreate, hkind, hgv]
    refine ⟨?_, ?_, ?_, ?_⟩
    · intro c; split_ifs <;> simp
    · intro o; split_ifs <;> simp
    · intro hm hd _ hne; simp [hm, hd, hne]
    · intro hm hd h
      rcases h with h | ⟨hg, he⟩
      · cases h
      · simp [hm, hd, hg, he]

/-- C7, as amended: with the field manager `NewRequestScope` installs, which the library
builds without object converter, without object creater and with the empty kind, no Apply
reports a `FieldConflict` or succeeds, whatever the manager, the objects and the force
flag: it is the bad request "invalid object type" when the applied object's
group/version/kind is not empty, and a nil dereference when the kind is empty and the
live object has no managed fields, or when the field manager itself is `nil`; so the
second of two Apply operations that claim `"x"` returns no `FieldConflict`, and no
ownership of `"x"` is recorded. -/
theorem NewRequestScope_apply_ends_early (ext : Externals) (rest : Remainder)
    (liveObj appliedObj : RuntimeObject) (manager : String) (force : Bool)
    (hctor : ext.NewDefaultFieldManager = managedfields.NewDefaultFieldManager) :
    ∃ s, NewRequestScope ext = some s
      ∧ ApplyEndsEarly rest s.FieldManager liveObj appliedObj manager force :=
  ⟨_, NewRequestScope_eq ext,
    apply_ends_early rest _ liveObj appliedObj manager force
      (fakeFieldManager_of_library ext hctor)⟩

/-- Witness of C7 (amended): `alice` applies `"x"` to a stored ConfigMap. -/
theorem NewRequestScope_apply_ends_early_witness :
    ∃ s, NewRequestScope sampleExternals = some s
      ∧ ApplyEndsEarly conflictingRemainder s.FieldManager sampleLiveObject
          (sampleAppliedObject "1") "alice" false :=
  NewRequestScope_apply_ends_early sampleExternals conflictingRemainder sampleLiveObject
    (sampleAppliedObject "1") "alice" false rfl

/-- C7, counterexample: `alice` and then `bob` apply `"x"` to a stored ConfigMap through
the installed field manager, `bob` without force; both calls return the bad request
"invalid object type", so the second returns no `FieldConflict` listing `"x"`. -/
theorem NewRequestScope_second_apply_no_conflict :
    ∃ s, NewRequestScope sampleExternals = some s
      ∧ FieldManager.Apply conflictingRemainder s.FieldManager sampleLiveObject
          (sampleAppliedObject "1") "alice" false
        = ApplyOutcome.badRequest "invalid object type: /v1, Kind=ConfigMap"
      ∧ FieldManager.Apply conflictingRemainder s.FieldManager sampleLiveObject
          (sampleAppliedObject "2") "bob" false
        = ApplyOutcome.badRequest "invalid object type: /v1, Kind=ConfigMap"
      ∧ ¬ ∃ c, FieldManager.Apply conflictingRemainder s.FieldManager sampleLiveObject
          (sampleAppliedObject "2") "bob" false = ApplyOutcome.conflict c
            ∧ "x" ∈ c.fields := by
  refine ⟨_, NewRequestScope_eq sampleExternals, by decide, by decide, ?_⟩
  rintro ⟨c, hc, _⟩
  have h : FieldManager.Apply conflictingRemainder (fakeFieldManager sampleExternals)
      sampleLiveObject (sampleAppliedObject "2") "bob" false
      = ApplyOutcome.badRequest "invalid object type: /v1, Kind=ConfigMap" := by decide
  rw [h] at hc
  cases hc

end scope

/-! # Theorems: configuration builders -/

namespace v1alpha1

/-- Host-safe bytes are ASCII. -/
theorem hostSafeBytes_lt (n : Nat) (h : n ∈ hostSafeBytes) : n < 0x80 := by
  have hall : ∀ m ∈ hostSafeBytes, m < 0x80 := by decide
  exact hall n h

/-- Escaping leaves a list of host-safe characters as it is. -/
theorem escapeHost_data_of_safe (l : List Char) (h : ∀ ch ∈ l, ch.toNat ∈ hostSafeBytes) :
    (l.flatMap utf8Bytes).flatMap escapeHostByte = l := by
  induction l with
  | nil => rfl
  | cons ch l ih =>
    have hch : ch.toNat ∈ hostSafeBytes := h ch (List.mem_cons_self _ _)
    have hlt : ch.toNat < 0x80 := hostSafeBytes_lt _ hch
    have hb : utf8Bytes ch = [ch.toNat] := by
      unfold utf8Bytes
      simp only [hlt, if_true]
    have he : escapeHostByte ch.toNat = [ch] := by
      unfold escapeHostByte shouldEscapeHost
      simp [hch, Char.ofNat_toNat]
    rw [List.flatMap_cons, hb, List.flatMap_append, ih fun c hc => h c (List.mem_cons_of_mem _ hc)]
    simp [he]

/-- Escaping leaves a host-safe string as it is. -/
theorem escapeHost_of_safe (s : String) (h : HostSafe s) : escapeHost s = s := by
  unfold escapeHost
  rw [escapeHost_data_of_safe s.data h]

/-- Host-safe strings are closed under concatenation. -/
theorem hostSafe_append (a b : String) (ha : HostSafe a) (hb : HostSafe b) :
    HostSafe (a ++ b) := by
  intro ch hch
  rw [String.data_append, List.mem_append] at hch
  rcases hch with h | h
  · exact ha ch h
  · exact hb ch h

/-- Joining a host-safe host and port gives a host-safe string. -/
theorem hostSafe_JoinHostPort (host port : String) (hh : HostSafe host) (hp : HostSafe port) :
    HostSafe (JoinHostPort host port) := by
  have hl : HostSafe "[" := by intro ch hch; revert ch; decide
  have hr : HostSafe "]:" := by intro ch hch; revert ch; decide
  have hc : HostSafe ":" := by intro ch hch; revert ch; decide
  unfold JoinHostPort
  split
  · exact hostSafe_append _ _ (hostSafe_append _ _ (hostSafe_append _ _ hl hh) hr) hp
  · exact hostSafe_append _ _ (hostSafe_append _ _ hh hc) hp

/-- The result of `JoinHostPort` is never empty. -/
theorem JoinHostPort_ne_empty (host port : String) : JoinHostPort host port ≠ "" := by
  intro h
  have hd := congrArg String.data h
  unfold JoinHostPort at hd
  split at hd <;> simp [String.data_append] at hd

/-- The text of an `https` URL whose host comes from `JoinHostPort`. -/
theorem URL_String_https (host port : String) :
    URL.String { Scheme := "https", Host := JoinHostPort host port }
      = "https://" ++ escapeHost (JoinHostPort host port) := by
  have hne := JoinHostPort_ne_empty host port
  unfold URL.String
  simp only [hne, ne_eq, not_false_eq_true, or_true, if_true]
  have : ("https" : String) ≠ "" := by decide
  simp only [this, ne_eq, not_false_eq_true, if_true]
  rfl

/-- For one host, different ports give different results of `JoinHostPort`. -/
theorem JoinHostPort_port_injective (host p q : String)
    (h : JoinHostPort host p = JoinHostPort host q) : p = q := by
  unfold JoinHostPort at h
  split at h
  · have hd := congrArg String.data h
    simp only [String.data_append, List.append_cancel_left_eq] at hd
    exact String.ext hd
  · have hd := congrArg String.data h
    simp only [String.data_append, List.append_cancel_left_eq] at hd
    exact String.ext hd

/-- C5, as amended: the builders branch on the error of the kubelet-configuration
constructor.  For every host name and local-IP lookup result, with non-nil kubelet flags,
`NewDefaultEdgeCoreConfig` and `NewMinEdgeCoreConfig` each return a configuration object
when that constructor returns a configuration and no error; when it returns an error
each logs the failure and exits with status 1; a `nil` configuration without error ends
in a nil dereference. -/
theorem builders_outcome (c : Constants) (h : Host)
    (hflags : h.NewKubeletFlags.isSome = true) : BuildersOutcome c h := by
  obtain ⟨kf, hkf⟩ := Option.isSome_iff_exists.1 hflags
  unfold BuildersOutcome NewDefaultEdgeCoreConfig NewMinEdgeCoreConfig
  rw [hkf]
  rcases hc : h.NewKubeletConfiguration with ⟨p, e⟩
  cases e with
  | some err => dsimp only; exact ⟨rfl, rfl⟩
  | none =>
    cases p with
    | none => dsimp only; exact ⟨rfl, rfl⟩
    | some kc => dsimp only; exact ⟨_, _, rfl, rfl⟩

/-- Witness of C5 (amended) on a host where every constructor succeeds. -/
theorem builders_outcome_witness :
    (sampleHost "192.168.1.10").NewKubeletFlags.isSome = true
      ∧ BuildersOutcome sampleConstants (sampleHost "192.168.1.10") :=
  ⟨rfl, builders_outcome sampleConstants (sampleHost "192.168.1.10") rfl⟩

/-- C5, counterexample: on a host whose kubelet-configuration constructor returns an
error, both builders exit with status 1 and return no configuration object. -/
theorem builders_exit_on_error :
    NewDefaultEdgeCoreConfig sampleConstants failingHost
        = Outcome.exited kubeletConfigurationFailure ⟨"invalid kubelet configuration"⟩ 1
      ∧ NewMinEdgeCoreConfig sampleConstants failingHost
        = Outcome.exited kubeletConfigurationFailure ⟨"invalid kubelet configuration"⟩ 1
      ∧ ¬ (∃ cfg, NewDefaultEdgeCoreConfig sampleConstants failingHost = Outcome.returned cfg)
      ∧ ¬ (∃ cfg, NewMinEdgeCoreConfig sampleConstants failingHost = Outcome.returned cfg) := by
  refine ⟨rfl, rfl, ?_, ?_⟩
  · rintro ⟨cfg, h⟩
    cases h
  · rintro ⟨cfg, h⟩
    cases h

/-- C6: whenever `NewDefaultEdgeCoreConfig` returns, the result is non-nil, its `DataBase`
and `Modules` are non-nil, and so are the eight module sections it populates and the
nested sections `EdgeHub.Quic`, `EdgeHub.WebSocket`, `EventBus.TLS` and
`MetaManager.MetaServer`. -/
theorem NewDefaultEdgeCoreConfig_full (c : Constants) (h : Host) (r : Option EdgeCoreConfig)
    (hret : NewDefaultEdgeCoreConfig c h = Outcome.returned r) : FullConfig r := by
  unfold NewDefaultEdgeCoreConfig at hret
  cases hkf : h.NewKubeletFlags with
  | none => rw [hkf] at hret; cases hret
  | some kf =>
    rw [hkf] at hret
    rcases hc : h.NewKubeletConfiguration with ⟨p, e⟩
    rw [hc] at hret
    cases e with
    | some err => dsimp only at hret; cases hret
    | none =>
      cases p with
      | none => dsimp only at hret; cases hret
      | some kc =>
        dsimp only at hret
        simp only [Outcome.returned.injEq] at hret
        subst hret
        exact ⟨_, _, _, _, _, _, _, _, _, _, _, _, _, _, _, rfl, rfl, rfl, rfl, rfl, rfl, rfl,
          rfl, rfl, rfl, rfl, rfl, rfl, rfl, rfl⟩

/-- Witness of C6 on a host where every constructor succeeds. -/
theorem NewDefaultEdgeCoreConfig_full_witness :
    ∃ r, NewDefaultEdgeCoreConfig sampleConstants (sampleHost "192.168.1.10")
        = Outcome.returned r ∧ FullConfig r :=
  ⟨_, rfl, NewDefaultEdgeCoreConfig_full sampleConstants (sampleHost "192.168.1.10") _ rfl⟩

/-- C9, as amended: for every local IP string `ip`, `WebSocket.Server` is
`JoinHostPort(ip, "10000")`, `Quic.Server` is `JoinHostPort(ip, "10001")`, and `HTTPServer`
is `"https://"` followed by `JoinHostPort(ip, "10002")` with the bytes not allowed in a
URL host percent-encoded, hence followed by `JoinHostPort(ip, "10002")` itself when `ip`
has host-safe bytes only; the three addresses are pairwise distinct, and `JoinHostPort`
writes `host:port`, with the host in square brackets when it contains a colon. -/
theorem NewDefaultEdgeCoreConfig_endpoints (c : Constants) (h : Host)
    (hflags : h.NewKubeletFlags.isSome = true)
    (hconfig : h.NewKubeletConfiguration.1.isSome = true)
    (herr : h.NewKubeletConfiguration.2 = none) :
    ∃ cfg, NewDefaultEdgeCoreConfig c h = Outcome.returned (some cfg)
      ∧ EdgeHubEndpoints cfg (h.GetLocalIP h.GetHostname).1 := by
  obtain ⟨kf, hkf⟩ := Option.isSome_iff_exists.1 hflags
  obtain ⟨kc, hkc⟩ := Option.isSome_iff_exists.1 hconfig
  unfold NewDefaultEdgeCoreConfig
  rw [hkf]
  dsimp only
  rw [herr, hkc]
  refine ⟨_, rfl, _, _, _, _, rfl, rfl, rfl, rfl, rfl, rfl, ?_, ?_, ?_, ?_⟩
  · exact URL_String_https _ _
  · intro hsafe
    have hport : HostSafe "10002" := by intro ch hch; revert ch; decide
    dsimp only
    rw [URL_String_https, escapeHost_of_safe _ (hostSafe_JoinHostPort _ _ hsafe hport)]
  · refine ⟨?_, ?_, ?_⟩ <;> intro heq <;>
      exact absurd (JoinHostPort_port_injective _ _ _ heq) (by decide)
  · intro port
    rfl

/-- Witness of C9 (amended) for the local IP `192.168.1.10`. -/
theorem NewDefaultEdgeCoreConfig_endpoints_witness :
    ∃ cfg, NewDefaultEdgeCoreConfig sampleConstants (sampleHost "192.168.1.10")
        = Outcome.returned (some cfg)
      ∧ EdgeHubEndpoints cfg "192.168.1.10" :=
  NewDefaultEdgeCoreConfig_endpoints sampleConstants (sampleHost "192.168.1.10") rfl rfl rfl

/-- C9, counterexample: for the local IP `fe80::1%eth0`, `HTTPServer` is
`https://[fe80::1%25eth0]:10002`, which is not `"https://"` followed by
`JoinHostPort(ip, "10002")`. -/
theorem NewDefaultEdgeCoreConfig_HTTPServer_escaped :
    ∃ cfg m hub, NewDefaultEdgeCoreConfig sampleConstants (sampleHost "fe80::1%eth0")
        = Outcome.returned (some cfg)
      ∧ cfg.Modules = some m ∧ m.EdgeHub = some hub
      ∧ hub.HTTPServer = "https://[fe80::1%25eth0]:10002"
      ∧ "https://" ++ JoinHostPort "fe80::1%eth0" "10002" = "https://[fe80::1%eth0]:10002"
      ∧ hub.HTTPServer ≠ "https://" ++ JoinHostPort "fe80::1%eth0" "10002" :=
  ⟨_, _, _, rfl, rfl, rfl, by decide, by decide, by decide⟩

/-- C10: given the same host name, local IP and kubelet defaults, every field that
`NewMinEdgeCoreConfig` sets explicitly (TypeMeta, DataBase.DataSource, the kubelet flags
HostnameOverride, NodeIP and KubeConfig, the kubelet ContentType, EdgeHub Heartbeat, the
TLS file paths, the WebSocket section, HTTPServer, Token and the EventBus MQTT fields)
has the same value in the result of `NewDefaultEdgeCoreConfig`. -/
theorem NewMinEdgeCoreConfig_restricts_default (c : Constants) (h : Host)
    (hflags : h.NewKubeletFlags.isSome = true)
    (hconfig : h.NewKubeletConfiguration.1.isSome = true)
    (herr : h.NewKubeletConfiguration.2 = none) :
    ∃ min dflt, NewMinEdgeCoreConfig c h = Outcome.returned (some min)
      ∧ NewDefaultEdgeCoreConfig c h = Outcome.returned (some dflt)
      ∧ MinFieldsAgree min dflt := by
  obtain ⟨kf, hkf⟩ := Option.isSome_iff_exists.1 hflags
  obtain ⟨kc, hkc⟩ := Option.isSome_iff_exists.1 hconfig
  unfold NewDefaultEdgeCoreConfig NewMinEdgeCoreConfig
  rw [hkf]
  dsimp only
  rw [herr, hkc]
  refine ⟨_, _, rfl, rfl, _, _, _, _, _, _, _, _, _, _, rfl, rfl, rfl, rfl, rfl, rfl, rfl, rfl,
    rfl, rfl, ?_⟩
  dsimp only
  repeat' constructor

/-- Witness of C10 on a host where every constructor succeeds. -/
theorem NewMinEdgeCoreConfig_restricts_default_witness :
    ∃ min dflt, NewMinEdgeCoreConfig sampleConstants (sampleHost "192.168.1.10")
        = Outcome.returned (some min)
      ∧ NewDefaultEdgeCoreConfig sampleConstants (sampleHost "192.168.1.10")
        = Outcome.returned (some dflt)
      ∧ MinFieldsAgree min dflt :=
  NewMinEdgeCoreConfig_restricts_default sampleConstants (sampleHost "192.168.1.10") rfl rfl rfl

end v1alpha1
